import Mathlib

/-!
# Verification of the potpie ingestion orchestrator and query fan-out

Shallow embedding of
`app/modules/parsing/graph_construction/parsing_service.py` (class
`ParsingService`) and
`app/modules/intelligence/tools/kg_based_tools/ask_knowledge_graph_queries_tool.py`
(class `KnowledgeGraphQueryTool`).

External collaborators (GraphBuilder, GraphStore, EnrichmentEngine,
ProjectStatusStore, RepositoryAcquirer) are modelled as oracles in an
environment record: each fallible call is an `Except Exc` value supplied by
the environment.  The side effects of a run (status writes, graph-store
calls, telemetry events, directory deletion) are recorded as a trace, a
`List Event`, returned next to the `Except` outcome of the Python function.
-/

/-- The project lifecycle states used by the orchestrator
(`ProjectStatusEnum` in `projects_schema`). -/
inductive ProjectStatusEnum
  | ERROR
  | PARSED
  | READY
deriving DecidableEq

/-- Python exceptions that flow through the orchestrator:
`ParsingFailedError` (raised in `analyze_directory`), other
`ParsingServiceError`s, FastAPI `HTTPException` (status code, detail), and
any other `Exception`. -/
inductive Exc
  | parsingFailed (msg : String)
  | parsingService (msg : String)
  | httpException (code : Nat) (detail : String)
  | other (msg : String)
deriving DecidableEq

/-- Python `str(e)` for the exceptions we model. -/
def Exc.msg : Exc → String
  | .parsingFailed m => m
  | .parsingService m => m
  | .httpException _ d => d
  | .other m => m

/-- Modelled from the spec: the class hierarchy of `parsing_helper` (not
under `src/`).  Per spec sections 4.1 and 7, the typed parsing-failure
condition `ParsingFailedError` (covering BuildFailedError and
UnsupportedLanguageError) is a `ParsingServiceError`, while `HTTPException`
and generic exceptions are not. -/
def Exc.isParsingServiceError : Exc → Bool
  | .parsingFailed _ => true
  | .parsingService _ => true
  | .httpException _ _ => false
  | .other _ => false

/-- Observable side effects of one ingestion run, in program order. -/
inductive Event
  | cleanupGraph
  | createEntityIdIndex
  | createNodeIdIndex
  | buildGraph
  | createNodes
  | createEdges
  | setStatus (s : ProjectStatusEnum)
  | sendEvent (status : String)
  | runInference
  | logStats
  | createAndStoreGraph
  | closeManager
  | closeService
  | rmtree (dir : String)
deriving DecidableEq

/-- Oracles for the external calls made by `ParsingService.analyze_directory`.
Graph nodes and edges are opaque records; the orchestrator only observes
their cardinality, so they are modelled as `List Nat`. -/
structure AnalyzeEnv where
  /-- Result of the i-th `GraphConstructor.build_graph` call (0-indexed):
  either an exception or a pair (nodes, relationships). -/
  buildResults : Nat → Except Exc (List Nat × List Nat)
  /-- Outcome of `graph_manager.create_nodes`. -/
  createNodesRes : Except Exc Unit
  /-- Outcome of `graph_manager.create_edges`. -/
  createEdgesRes : Except Exc Unit
  /-- Outcome of `inference_service.run_inference` (the enrichment step). -/
  inferenceRes : Except Exc Unit
  /-- Outcome of `CodeGraphService.create_and_store_graph` (generic branch). -/
  storeGraphRes : Except Exc Unit

/-- Lines 151-174 of `parsing_service.py`: after a build attempt produced a
non-empty node set, insert nodes, insert edges, set status PARSED, emit the
telemetry event, run inference, log stats, set status READY, emit the
telemetry event.  Any raise aborts the rest of the sequence. -/
def afterBuild (env : AnalyzeEnv) : Except Exc Unit × List Event :=
  match env.createNodesRes with
  | .error e => (.error e, [.createNodes])
  | .ok _ =>
  match env.createEdgesRes with
  | .error e => (.error e, [.createNodes, .createEdges])
  | .ok _ =>
  match env.inferenceRes with
  | .error e =>
      (.error e, [.createNodes, .createEdges, .setStatus .PARSED,
        .sendEvent "Parsed", .runInference])
  | .ok _ =>
      (.ok (), [.createNodes, .createEdges, .setStatus .PARSED,
        .sendEvent "Parsed", .runInference, .logStats,
        .setStatus .READY, .sendEvent "Ready"])

/-- Lines 144-174: the body of the `try` block of the graph-native branch.
Build once; if the node set is empty, build once more; if still empty raise
`ParsingFailedError`; otherwise continue with `afterBuild`. -/
def tryBody (env : AnalyzeEnv) (project_id : Nat) : Except Exc Unit × List Event :=
  match env.buildResults 0 with
  | .error e => (.error e, [.buildGraph])
  | .ok (n, _r) =>
    if n.length = 0 then
      match env.buildResults 1 with
      | .error e => (.error e, [.buildGraph, .buildGraph])
      | .ok (n2, _r2) =>
        if n2.length = 0 then
          (.error (.parsingFailed
            ("Project: " ++ toString project_id ++ " Failed to build graph")),
           [.buildGraph, .buildGraph])
        else
          ((afterBuild env).1, .buildGraph :: .buildGraph :: (afterBuild env).2)
    else
      ((afterBuild env).1, .buildGraph :: (afterBuild env).2)

/-- Model of `ParsingService.analyze_directory` (lines 132-224).  Graph-native branch:
create indices, run `tryBody`; any exception is caught, status is set to
ERROR with a telemetry event, and the function returns normally; the
`finally` closes the graph manager.  Generic branch: create and store the
graph, set PARSED, run inference, set READY, with a `finally` that closes
the service and logs stats.  `other` branch: set ERROR and raise
`ParsingFailedError`. -/
def analyze_directory (env : AnalyzeEnv) (project_id : Nat) (language : String) :
    Except Exc Unit × List Event :=
  if language = "python" ∨ language = "javascript" ∨ language = "typescript" then
    match (tryBody env project_id).1 with
    | .ok _ =>
        (.ok (), .createEntityIdIndex :: .createNodeIdIndex ::
          (tryBody env project_id).2 ++ [.closeManager])
    | .error _e =>
        (.ok (), .createEntityIdIndex :: .createNodeIdIndex ::
          (tryBody env project_id).2 ++
          [.setStatus .ERROR, .sendEvent "Error", .closeManager])
  else if language ≠ "other" then
    match env.storeGraphRes with
    | .error e => (.error e, [.createAndStoreGraph, .closeService, .logStats])
    | .ok _ =>
      match env.inferenceRes with
      | .error e =>
          (.error e, [.createAndStoreGraph, .setStatus .PARSED, .runInference,
            .closeService, .logStats])
      | .ok _ =>
          (.ok (), [.createAndStoreGraph, .setStatus .PARSED, .runInference,
            .logStats, .setStatus .READY, .logStats, .closeService, .logStats])
  else
    (.error (.parsingFailed
      "Repository doesn\x27t consist of a language currently supported."),
     [.setStatus .ERROR, .logStats])

/-- Oracles for the external calls made by `ParsingService.parse_directory`,
on top of the `analyze_directory` environment. -/
structure ParseEnv where
  analyzeEnv : AnalyzeEnv
  /-- Outcome of `CodeGraphService.cleanup_graph`. -/
  cleanupRes : Except Exc Unit
  /-- Outcome of `parse_helper.clone_or_copy_repository`. -/
  cloneRes : Except Exc Unit
  /-- Outcome of `parse_helper.setup_project_directory`: the extracted
  directory and the (possibly reassigned) project id. -/
  setupRes : Except Exc (String × Nat)
  /-- The detected dominant language. -/
  language : String
  /-- Oracle for `os.path.exists`. -/
  pathExists : String → Bool
  /-- The `PROJECT_PATH` environment variable. -/
  projectPath : String

/-- Lines 61-95 of `parsing_service.py`: the body of the outer `try` of
`parse_directory`.  Returns the outcome, the value of the `extracted_dir`
local (None until setup succeeds), the effective `project_id` local, and
the trace.  A `cleanup_graph` failure is wrapped as `HTTPException 500`
(line 76), which then propagates into the outer handlers. -/
def cleanupStep (env : ParseEnv) (cleanup_graph : Bool) : Option Exc × List Event :=
  if cleanup_graph then
    match env.cleanupRes with
    | .error _e =>
        (some (Exc.httpException 500 "Internal server error"), [Event.cleanupGraph])
    | .ok _ => (none, [Event.cleanupGraph])
  else (none, [])

def tryMain (env : ParseEnv) (project_id : Nat) (cleanup_graph : Bool) :
    Except Exc (String × Nat) × Option String × Nat × List Event :=
  match (cleanupStep env cleanup_graph).1 with
  | some e => (.error e, none, project_id, (cleanupStep env cleanup_graph).2)
  | none =>
  match env.cloneRes with
  | .error e => (.error e, none, project_id, (cleanupStep env cleanup_graph).2)
  | .ok _ =>
  match env.setupRes with
  | .error e => (.error e, none, project_id, (cleanupStep env cleanup_graph).2)
  | .ok (dir, pid) =>
    match (analyze_directory env.analyzeEnv pid env.language).1 with
    | .error e =>
        (.error e, some dir, pid,
         (cleanupStep env cleanup_graph).2 ++
           (analyze_directory env.analyzeEnv pid env.language).2)
    | .ok _ =>
        (.ok ("The project has been parsed successfully", pid),
         some dir, pid,
         (cleanupStep env cleanup_graph).2 ++
           (analyze_directory env.analyzeEnv pid env.language).2)

/-- Python `s.startswith(p)`: `p` is a character-sequence prefix of `s`. -/
def pyStartswith (s p : String) : Bool :=
  List.isPrefixOf p.data s.data

/-- The result surfaced by `parse_directory` after its two `except`
handlers (lines 97-111): a `ParsingServiceError` becomes a 500 with the
`"Failed during parsing"` message carrying the project id, any other
exception a 500 with the original message plus traceback. -/
def parse_final_result (env : ParseEnv) (project_id : Nat) (cleanup_graph : Bool) :
    Except Exc (String × Nat) :=
  match (tryMain env project_id cleanup_graph).1 with
  | .ok v => .ok v
  | .error e =>
    if e.isParsingServiceError then
      .error (.httpException 500
        (toString (tryMain env project_id cleanup_graph).2.2.1 ++
         " Failed during parsing: " ++ e.msg))
    else
      .error (.httpException 500 (e.msg ++ "\nTraceback: omitted"))

/-- The trace of `parse_directory` up to and including the `except`
handlers: on an exception both handlers set status ERROR (lines 99-101,
105-107) before the exception is re-raised. -/
def parse_handler_trace (env : ParseEnv) (project_id : Nat) (cleanup_graph : Bool) :
    List Event :=
  match (tryMain env project_id cleanup_graph).1 with
  | .ok _ => (tryMain env project_id cleanup_graph).2.2.2
  | .error _ =>
      (tryMain env project_id cleanup_graph).2.2.2 ++ [Event.setStatus .ERROR]

/-- Model of `ParsingService.parse_directory` (lines 50-119): the `try` body
(`tryMain`), the two `except` handlers (`parse_final_result`,
`parse_handler_trace`), then the `finally`, which deletes `extracted_dir`
when it is set, non-empty, exists, and starts with `PROJECT_PATH`. -/
def parse_directory (env : ParseEnv) (project_id : Nat) (cleanup_graph : Bool) :
    Except Exc (String × Nat) × List Event :=
  match (tryMain env project_id cleanup_graph).2.1 with
  | some dir =>
    if dir ≠ "" ∧ env.pathExists dir ∧ pyStartswith dir env.projectPath then
      (parse_final_result env project_id cleanup_graph,
       parse_handler_trace env project_id cleanup_graph ++ [Event.rmtree dir])
    else
      (parse_final_result env project_id cleanup_graph,
       parse_handler_trace env project_id cleanup_graph)
  | none =>
      (parse_final_result env project_id cleanup_graph,
       parse_handler_trace env project_id cleanup_graph)

/-- Modelled from the spec: the spec-side reading of the cleanup guard in
section 4.1 step 8 — "the directory must lie under the configured
project-storage root".  A path lies under a root directory when it is the
root itself or extends the root past a path separator.  This is the
refinement target to compare with the `startswith` check of the source. -/
def liesUnderRoot (dir root : String) : Bool :=
  dir = root ∨ List.isPrefixOf (root ++ "/").data dir.data

/-!
## The query fan-out (`KnowledgeGraphQueryTool`)
-/

/-- A raw match record returned by
`InferenceService.query_vector_index`: a dictionary whose fields may be
absent (`result.get(...)` then yields None). -/
structure RawMatch where
  node_id : Option String
  docstring : Option String
  file_path : Option String
  start_line : Option Int
  end_line : Option Int
  similarity : Option Int
deriving DecidableEq

/-- Modelled from the spec: the `QueryResponse` record of
`inference_schema` (not under `src/`).  Per spec section 3 (QueryResult),
numeric fields are plain numbers (never null) and text fields carry the
engine value as given. -/
structure QueryResponse where
  node_id : Option String
  docstring : Option String
  file_path : Option String
  start_line : Int
  end_line : Int
  similarity : Int
deriving DecidableEq

/-- The `QueryRequest` record of the tool module: node-id filter, project id, question. -/
structure QueryRequest where
  node_ids : List String
  project_id : String
  query : String
deriving DecidableEq

/-- Python `x or 0` applied to a `dict.get` result: None or a falsy zero
becomes `0`, any other value is kept. -/
def pyOrZero : Option Int → Int
  | none => 0
  | some v => if v = 0 then 0 else v

/-- Lines 60-67: the mapping of one raw engine match into a
`QueryResponse`: numeric fields via `or 0`, text fields passed through. -/
def toQueryResponse (result : RawMatch) : QueryResponse :=
  { node_id := result.node_id
    docstring := result.docstring
    file_path := result.file_path
    start_line := pyOrZero result.start_line
    end_line := pyOrZero result.end_line
    similarity := pyOrZero result.similarity }

/-- Observable calls of one batch query. -/
inductive QEvent
  | resolveProject
  | dispatch (query : String)
deriving DecidableEq

/-- Oracles for the external calls of `KnowledgeGraphQueryTool`. -/
structure QEnv where
  /-- The `self.user_id` field. -/
  userId : String
  /-- Outcome of `ProjectService.get_project_repo_details_from_db`:
  an exception, no project, or a project record with its canonical id. -/
  getProject : Except Exc (Option String)
  /-- Outcome of `InferenceService.query_vector_index` for a given
  (project id, question, node-id filter). -/
  queryVectorIndex : String → String → List String → Except Exc (List RawMatch)

namespace KnowledgeGraphQueryTool

/-- Lines 54-69: `process_query` — call the vector index and map each raw
match into a `QueryResponse`. -/
def process_query (env : QEnv) (query_request : QueryRequest) :
    Except Exc (List QueryResponse) :=
  match env.queryVectorIndex query_request.project_id query_request.query
      query_request.node_ids with
  | .error e => .error e
  | .ok results => .ok (results.map toQueryResponse)

/-- Lines 49-74: `ask_multiple_knowledge_graph_queries` — gather one task
per request.  `asyncio.gather` schedules every task (so every dispatch
event occurs), preserves input order in the result list, and re-raises the
first failure, failing the whole batch. -/
def ask_multiple_knowledge_graph_queries (env : QEnv)
    (queries : List QueryRequest) :
    Except Exc (List (List QueryResponse)) × List QEvent :=
  (queries.mapM (process_query env),
   queries.map (fun q => QEvent.dispatch q.query))

/-- Lines 88-118: `ask_knowledge_graph_query` — resolve the project once,
raise `ValueError` when not found, then build one `QueryRequest` per
question (all sharing the resolved id and node-id filter) and gather. -/
def ask_knowledge_graph_query (env : QEnv) (queries : List String)
    (project_id : String) (node_ids : List String) :
    Except Exc (List (List QueryResponse)) × List QEvent :=
  match env.getProject with
  | .error e => (.error e, [.resolveProject])
  | .ok none =>
      (.error (.other
        ("Project with ID \x27" ++ project_id ++
         "\x27 not found in database for user \x27" ++ env.userId ++ "\x27")),
       [.resolveProject])
  | .ok (some pid) =>
    let query_list := queries.map (fun query =>
      { query := query, project_id := pid, node_ids := node_ids : QueryRequest })
    let (res, tr) := ask_multiple_knowledge_graph_queries env query_list
    (res, QEvent.resolveProject :: tr)

/-- The value returned by `KnowledgeGraphQueryTool.run`: either the batch
results or the structured error dictionary of line 128. -/
inductive RunValue
  | results (rs : List (List QueryResponse))
  | errorPayload (message : String)
deriving DecidableEq

/-- Lines 120-128: `run` — delegate to `ask_knowledge_graph_query`; any
exception is caught and converted into an error dictionary value. -/
def run (env : QEnv) (queries : List String) (repo_id : String)
    (node_ids : List String) : Except Exc RunValue × List QEvent :=
  let (res, tr) := ask_knowledge_graph_query env queries repo_id node_ids
  match res with
  | .ok results => (.ok (.results results), tr)
  | .error e =>
      (.ok (.errorPayload ("An unexpected error occurred: " ++ e.msg)), tr)

end KnowledgeGraphQueryTool

/-!
## Concrete environments used to instantiate the theorems
-/

/-- An `AnalyzeEnv` in which every external call succeeds and the first
build returns one node and one edge. -/
def envAllOk : AnalyzeEnv where
  buildResults := fun _ => .ok ([1], [1])
  createNodesRes := .ok ()
  createEdgesRes := .ok ()
  inferenceRes := .ok ()
  storeGraphRes := .ok ()

/-- An `AnalyzeEnv` in which every build attempt returns an empty node set. -/
def envEmptyBuilds : AnalyzeEnv :=
  { envAllOk with buildResults := fun _ => .ok ([], []) }

/-- An `AnalyzeEnv` in which enrichment (run_inference) raises. -/
def envInferenceFails : AnalyzeEnv :=
  { envAllOk with inferenceRes := .error (.other "boom") }

/-- A `ParseEnv` for a python project whose builds both return empty node
sets and whose acquisition steps succeed. -/
def penvEmptyBuilds : ParseEnv where
  analyzeEnv := envEmptyBuilds
  cleanupRes := .ok ()
  cloneRes := .ok ()
  setupRes := .ok ("/projects/p42", 42)
  language := "python"
  pathExists := fun _ => true
  projectPath := "/projects"

/-- A `ParseEnv` whose working directory extends the storage root as a
string without a path separator: a sibling of the root, outside it. -/
def penvSibling : ParseEnv :=
  { penvEmptyBuilds with
      analyzeEnv := envAllOk
      setupRes := .ok ("/projectsX", 42) }

/-- A fully successful `ParseEnv` for a python project. -/
def penvAllOk : ParseEnv :=
  { penvEmptyBuilds with analyzeEnv := envAllOk }

/-- A `ParseEnv` for a python project where enrichment raises. -/
def penvInferenceFails : ParseEnv :=
  { penvEmptyBuilds with analyzeEnv := envInferenceFails }

/-- A `QEnv` whose project lookup finds no project. -/
def qenvNotFound : QEnv where
  userId := "u1"
  getProject := .ok none
  queryVectorIndex := fun _ _ _ => .ok []

/-- A raw match with all optional fields missing. -/
def rawEmpty : RawMatch where
  node_id := none
  docstring := none
  file_path := none
  start_line := none
  end_line := none
  similarity := none

/-- A `QEnv` whose lookup resolves to project "pid-1" and whose vector
index returns a single raw match with all fields missing. -/
def qenvOneMatch : QEnv where
  userId := "u1"
  getProject := .ok (some "pid-1")
  queryVectorIndex := fun _ _ _ => .ok [rawEmpty]

/-!
## Trace predicates for the status-ordering claim
-/

/-- The status written by an event, if any. -/
def statusOf : Event → Option ProjectStatusEnum
  | .setStatus s => some s
  | _ => none

/-- Scans a trace left to right: `READY` may only be written once `PARSED`
has been written earlier (the `Bool` argument records whether `PARSED` has
been seen). -/
def readyOnlyAfterParsed : Bool → List Event → Bool
  | _, [] => true
  | seen, e :: rest =>
    match statusOf e with
    | some .PARSED => readyOnlyAfterParsed true rest
    | some .READY => seen && readyOnlyAfterParsed seen rest
    | _ => readyOnlyAfterParsed seen rest

/-- Whether `PARSED` has been seen after scanning the trace. -/
def seenParsed : Bool → List Event → Bool
  | s, [] => s
  | s, e :: rest =>
    match statusOf e with
    | some .PARSED => seenParsed true rest
    | _ => seenParsed s rest

/-!
## Claims about the query fan-out
-/

open KnowledgeGraphQueryTool in
/-- C7: for every batch of questions, `run` never raises to its caller:
its outcome is always `ok`, and when the underlying query pipeline raises
any exception (project-not-found and engine failures included) the
returned value is the structured error payload built from it. -/
theorem run_never_raises (env : QEnv) (queries : List String)
    (repo_id : String) (node_ids : List String) :
    (∃ v, (run env queries repo_id node_ids).1 = .ok v) ∧
    (∀ e, (ask_knowledge_graph_query env queries repo_id node_ids).1 = .error e →
      (run env queries repo_id node_ids).1 =
        .ok (.errorPayload ("An unexpected error occurred: " ++ e.msg))) := by
  unfold run
  rcases hA : ask_knowledge_graph_query env queries repo_id node_ids with ⟨res, tr⟩
  constructor
  · rcases res with e | r
    · exact ⟨_, rfl⟩
    · exact ⟨_, rfl⟩
  · intro e he
    have hres : res = Except.error e := he
    subst hres
    rfl

open KnowledgeGraphQueryTool in
/-- C7 witness: at a concrete environment whose lookup finds no project,
`run` returns an `ok` value. -/
theorem run_never_raises_witness :
    ∃ v, (run qenvNotFound ["q1"] "p1" []).1 = .ok v :=
  (run_never_raises qenvNotFound ["q1"] "p1" []).1

open KnowledgeGraphQueryTool in
/-- C8: `ask_knowledge_graph_query` resolves the project exactly once per
batch (one `resolveProject` event however many questions), the resolution
is the first event, and a not-found lookup fails the batch with no
dispatch event at all. -/
theorem fanout_resolves_once (env : QEnv) (queries : List String)
    (project_id : String) (node_ids : List String) :
    ((ask_knowledge_graph_query env queries project_id node_ids).2.count
        QEvent.resolveProject = 1) ∧
    ((ask_knowledge_graph_query env queries project_id node_ids).2.head? =
        some QEvent.resolveProject) ∧
    (env.getProject = .ok none →
      (ask_knowledge_graph_query env queries project_id node_ids).1 =
        .error (.other
          ("Project with ID \x27" ++ project_id ++
           "\x27 not found in database for user \x27" ++ env.userId ++ "\x27")) ∧
      ∀ q, QEvent.dispatch q ∉
        (ask_knowledge_graph_query env queries project_id node_ids).2) := by
  unfold ask_knowledge_graph_query
  rcases h : env.getProject with e | p
  · simp
  · rcases p with _ | pid
    · simp
    · simp only [ask_multiple_knowledge_graph_queries]
      refine ⟨?_, by simp, by simp⟩
      rw [List.count_cons_self]
      have : (List.map (fun q => QEvent.dispatch q.query)
          (queries.map (fun query =>
            ({ query := query, project_id := pid, node_ids := node_ids } :
              QueryRequest)))).count QEvent.resolveProject = 0 := by
        rw [List.count_eq_zero]
        simp
      omega

open KnowledgeGraphQueryTool in
/-- C8 witness: at a concrete not-found environment with a two-question
batch, resolution happens once, first, and no dispatch occurs. -/
theorem fanout_resolves_once_witness :
    ((ask_knowledge_graph_query qenvNotFound ["a", "b"] "p" []).2.count
        QEvent.resolveProject = 1) ∧
    (ask_knowledge_graph_query qenvNotFound ["a", "b"] "p" []).1 =
      .error (.other
        "Project with ID \x27p\x27 not found in database for user \x27u1\x27") ∧
    ∀ q, QEvent.dispatch q ∉
      (ask_knowledge_graph_query qenvNotFound ["a", "b"] "p" []).2 := by
  have h := fanout_resolves_once qenvNotFound ["a", "b"] "p" []
  have h3 := h.2.2 rfl
  exact ⟨h.1, h3.1, h3.2⟩

open KnowledgeGraphQueryTool in
/-- C9: each raw engine match maps to a `QueryResponse` whose numeric
fields are `0` whenever missing in the raw match, and whose `docstring`
and `file_path` (and `node_id`) are passed through exactly as given;
`process_query` applies exactly this mapping to every match the engine
returned. -/
theorem query_result_defaults (env : QEnv) (req : QueryRequest)
    (raws : List RawMatch) (raw : RawMatch)
    (h : env.queryVectorIndex req.project_id req.query req.node_ids = .ok raws) :
    process_query env req = .ok (raws.map toQueryResponse) ∧
    (raw.start_line = none → (toQueryResponse raw).start_line = 0) ∧
    (raw.end_line = none → (toQueryResponse raw).end_line = 0) ∧
    (raw.similarity = none → (toQueryResponse raw).similarity = 0) ∧
    (toQueryResponse raw).docstring = raw.docstring ∧
    (toQueryResponse raw).file_path = raw.file_path ∧
    (toQueryResponse raw).node_id = raw.node_id := by
  refine ⟨by unfold process_query; rw [h], ?_, ?_, ?_, rfl, rfl, rfl⟩
  · intro hs; simp [toQueryResponse, pyOrZero, hs]
  · intro hs; simp [toQueryResponse, pyOrZero, hs]
  · intro hs; simp [toQueryResponse, pyOrZero, hs]

open KnowledgeGraphQueryTool in
/-- C9 witness: at a concrete engine returning one match with every field
missing, the produced record has zero numerics and pass-through texts. -/
theorem query_result_defaults_witness :
    process_query qenvOneMatch
      { query := "q", project_id := "pid-1", node_ids := [] } =
      .ok [toQueryResponse rawEmpty] ∧
    (toQueryResponse rawEmpty).start_line = 0 ∧
    (toQueryResponse rawEmpty).end_line = 0 ∧
    (toQueryResponse rawEmpty).similarity = 0 ∧
    (toQueryResponse rawEmpty).docstring = none ∧
    (toQueryResponse rawEmpty).file_path = none := by
  have h := query_result_defaults qenvOneMatch
    { query := "q", project_id := "pid-1", node_ids := [] } [rawEmpty] rawEmpty rfl
  exact ⟨h.1, h.2.1 rfl, h.2.2.1 rfl, h.2.2.2.1 rfl,
    h.2.2.2.2.1.trans rfl, h.2.2.2.2.2.1.trans rfl⟩

/-!
## Helper lemmas about traces
-/

theorem readyOnlyAfterParsed_append (a b : List Event) (s : Bool) :
    readyOnlyAfterParsed s (a ++ b) =
      (readyOnlyAfterParsed s a && readyOnlyAfterParsed (seenParsed s a) b) := by
  induction a generalizing s with
  | nil => simp [readyOnlyAfterParsed, seenParsed]
  | cons e rest ih =>
    simp only [List.cons_append, readyOnlyAfterParsed, seenParsed]
    rcases h : statusOf e with _ | st
    · simp only [h]
      exact ih s
    · rcases st
      · simp only [h]
        exact ih s
      · simp only [h]
        exact ih true
      · simp only [h]
        exact (congrArg (s && ·) (ih s)).trans (Bool.and_assoc s _ _).symm

theorem afterBuild_scan (env : AnalyzeEnv) (s : Bool) :
    readyOnlyAfterParsed s (afterBuild env).2 = true := by
  unfold afterBuild
  rcases env.createNodesRes with e | _
  · rfl
  · rcases env.createEdgesRes with e | _
    · rfl
    · rcases env.inferenceRes with e | _ <;> rfl

theorem tryBody_scan (env : AnalyzeEnv) (project_id : Nat) (s : Bool) :
    readyOnlyAfterParsed s (tryBody env project_id).2 = true := by
  unfold tryBody
  rcases env.buildResults 0 with e | ⟨n, r⟩
  · rfl
  · simp only
    by_cases h : n.length = 0
    · rw [if_pos h]
      rcases env.buildResults 1 with e | ⟨n2, r2⟩
      · rfl
      · simp only
        by_cases h2 : n2.length = 0
        · rw [if_pos h2]; rfl
        · rw [if_neg h2]
          show readyOnlyAfterParsed s (afterBuild env).2 = true
          exact afterBuild_scan env s
    · rw [if_neg h]
      show readyOnlyAfterParsed s (afterBuild env).2 = true
      exact afterBuild_scan env s

theorem scan_native_wrap (tr suffix : List Event) (s : Bool)
    (h : ∀ s, readyOnlyAfterParsed s tr = true)
    (h2 : ∀ s, readyOnlyAfterParsed s suffix = true) :
    readyOnlyAfterParsed s (Event.createEntityIdIndex ::
      Event.createNodeIdIndex :: (tr ++ suffix)) = true := by
  have hred : readyOnlyAfterParsed s (Event.createEntityIdIndex ::
      Event.createNodeIdIndex :: (tr ++ suffix)) =
      readyOnlyAfterParsed s (tr ++ suffix) := rfl
  rw [hred, readyOnlyAfterParsed_append, h, h2, Bool.and_self]

theorem analyze_scan (env : AnalyzeEnv) (project_id : Nat) (language : String)
    (s : Bool) :
    readyOnlyAfterParsed s (analyze_directory env project_id language).2 = true := by
  unfold analyze_directory
  by_cases hl : language = "python" ∨ language = "javascript" ∨
      language = "typescript"
  · rw [if_pos hl]
    rcases (tryBody env project_id).1 with e | u
    · exact scan_native_wrap _ _ s (tryBody_scan env project_id)
        (fun s => by cases s <;> rfl)
    · exact scan_native_wrap _ _ s (tryBody_scan env project_id)
        (fun s => by cases s <;> rfl)
  · rw [if_neg hl]
    by_cases ho : language ≠ "other"
    · rw [if_pos ho]
      rcases env.storeGraphRes with e | _
      · rfl
      · rcases env.inferenceRes with e | _ <;> rfl
    · rw [if_neg ho]; rfl

theorem analyze_native_ok (env : AnalyzeEnv) (project_id : Nat) (language : String)
    (hl : language = "python" ∨ language = "javascript" ∨
      language = "typescript") :
    (analyze_directory env project_id language).1 = .ok () := by
  unfold analyze_directory
  rw [if_pos hl]
  rcases (tryBody env project_id).1 with e | u <;> rfl

theorem cleanupStep_scan (env : ParseEnv) (cleanup_graph : Bool) (s : Bool) :
    readyOnlyAfterParsed s (cleanupStep env cleanup_graph).2 = true := by
  unfold cleanupStep
  rcases cleanup_graph
  · rfl
  · rcases env.cleanupRes with e | u <;> rfl

theorem scan_append_noready (tr extra : List Event) (s : Bool)
    (h : ∀ s, readyOnlyAfterParsed s tr = true)
    (h2 : ∀ s, readyOnlyAfterParsed s extra = true) :
    readyOnlyAfterParsed s (tr ++ extra) = true := by
  rw [readyOnlyAfterParsed_append, h, h2, Bool.and_self]

theorem tryMain_scan (env : ParseEnv) (project_id : Nat) (cleanup_graph : Bool)
    (s : Bool) :
    readyOnlyAfterParsed s (tryMain env project_id cleanup_graph).2.2.2 = true := by
  unfold tryMain
  split
  · exact cleanupStep_scan env cleanup_graph s
  · split
    · exact cleanupStep_scan env cleanup_graph s
    · split
      · exact cleanupStep_scan env cleanup_graph s
      · split
        · exact scan_append_noready _ _ s (cleanupStep_scan env cleanup_graph)
            (analyze_scan env.analyzeEnv _ env.language)
        · exact scan_append_noready _ _ s (cleanupStep_scan env cleanup_graph)
            (analyze_scan env.analyzeEnv _ env.language)

theorem parse_handler_trace_scan (env : ParseEnv) (project_id : Nat)
    (cleanup_graph : Bool) (s : Bool) :
    readyOnlyAfterParsed s (parse_handler_trace env project_id cleanup_graph) =
      true := by
  unfold parse_handler_trace
  rcases (tryMain env project_id cleanup_graph).1 with e | v
  · exact scan_append_noready _ _ s (tryMain_scan env project_id cleanup_graph)
      (fun s => rfl)
  · exact tryMain_scan env project_id cleanup_graph s

theorem parse_scan (env : ParseEnv) (project_id : Nat) (cleanup_graph : Bool)
    (s : Bool) :
    readyOnlyAfterParsed s (parse_directory env project_id cleanup_graph).2 =
      true := by
  unfold parse_directory
  split
  · split
    · exact scan_append_noready _ _ s
        (parse_handler_trace_scan env project_id cleanup_graph) (fun s => rfl)
    · exact parse_handler_trace_scan env project_id cleanup_graph s
  · exact parse_handler_trace_scan env project_id cleanup_graph s

theorem parse_trace_shape (env : ParseEnv) (project_id : Nat)
    (cleanup_graph : Bool) :
    (parse_directory env project_id cleanup_graph).2 =
      parse_handler_trace env project_id cleanup_graph ∨
    ∃ d, (parse_directory env project_id cleanup_graph).2 =
      parse_handler_trace env project_id cleanup_graph ++ [Event.rmtree d] := by
  unfold parse_directory
  split
  · split
    · exact Or.inr ⟨_, rfl⟩
    · exact Or.inl rfl
  · exact Or.inl rfl

/-!
## Claims about the ingestion orchestrator
-/

/-- C5: in every single ingestion run, on any path, a READY status write
only ever occurs after a PARSED status write earlier in the same run; on
the success path both PARSED and READY are written, in that order. -/
theorem status_parsed_before_ready (env : ParseEnv) (project_id : Nat)
    (cleanup_graph : Bool) :
    readyOnlyAfterParsed false
      (parse_directory env project_id cleanup_graph).2 = true ∧
    (env.cleanupRes = .ok () → env.cloneRes = .ok () →
      ∀ dir pid2 n r, env.setupRes = .ok (dir, pid2) →
      (env.language = "python" ∨ env.language = "javascript" ∨
        env.language = "typescript") →
      env.analyzeEnv.buildResults 0 = .ok (n, r) → n ≠ [] →
      env.analyzeEnv.createNodesRes = .ok () →
      env.analyzeEnv.createEdgesRes = .ok () →
      env.analyzeEnv.inferenceRes = .ok () →
      Event.setStatus .PARSED ∈ (parse_directory env project_id cleanup_graph).2 ∧
      Event.setStatus .READY ∈ (parse_directory env project_id cleanup_graph).2) := by
  refine ⟨parse_scan env project_id cleanup_graph false, ?_⟩
  intro hcl hco dir pid2 n r hsetup hlang hb0 hn hcn hce hinf
  have hlen : ¬ n.length = 0 := by simpa [List.length_eq_zero] using hn
  have hTB : tryBody env.analyzeEnv pid2 =
      ((Except.ok () : Except Exc Unit),
       [.buildGraph, .createNodes, .createEdges, .setStatus .PARSED,
        .sendEvent "Parsed", .runInference, .logStats,
        .setStatus .READY, .sendEvent "Ready"]) := by
    simp [tryBody, afterBuild, hb0, hlen, hcn, hce, hinf]
  have hAD : analyze_directory env.analyzeEnv pid2 env.language =
      ((Except.ok () : Except Exc Unit),
       [.createEntityIdIndex, .createNodeIdIndex, .buildGraph, .createNodes,
        .createEdges, .setStatus .PARSED, .sendEvent "Parsed", .runInference,
        .logStats, .setStatus .READY, .sendEvent "Ready", .closeManager]) := by
    simp [analyze_directory, hlang, hTB]
  have hc1 : (cleanupStep env cleanup_graph).1 = none := by
    unfold cleanupStep
    rcases cleanup_graph <;> simp [hcl]
  have hTM : tryMain env project_id cleanup_graph =
      (.ok ("The project has been parsed successfully", pid2), some dir, pid2,
       (cleanupStep env cleanup_graph).2 ++
        [.createEntityIdIndex, .createNodeIdIndex, .buildGraph, .createNodes,
         .createEdges, .setStatus .PARSED, .sendEvent "Parsed", .runInference,
         .logStats, .setStatus .READY, .sendEvent "Ready", .closeManager]) := by
    simp [tryMain, hc1, hco, hsetup, hAD]
  have hPH : parse_handler_trace env project_id cleanup_graph =
      (cleanupStep env cleanup_graph).2 ++
        [.createEntityIdIndex, .createNodeIdIndex, .buildGraph, .createNodes,
         .createEdges, .setStatus .PARSED, .sendEvent "Parsed", .runInference,
         .logStats, .setStatus .READY, .sendEvent "Ready", .closeManager] := by
    simp [parse_handler_trace, hTM]
  have hmemP : Event.setStatus .PARSED ∈
      parse_handler_trace env project_id cleanup_graph := by
    rw [hPH]
    exact List.mem_append_right _ (by decide)
  have hmemR : Event.setStatus .READY ∈
      parse_handler_trace env project_id cleanup_graph := by
    rw [hPH]
    exact List.mem_append_right _ (by decide)
  rcases parse_trace_shape env project_id cleanup_graph with hsh | ⟨d, hsh⟩
  · rw [hsh]
    exact ⟨hmemP, hmemR⟩
  · rw [hsh]
    exact ⟨List.mem_append_left _ hmemP, List.mem_append_left _ hmemR⟩

/-- C5 witness: a fully successful python run writes PARSED and READY in
order. -/
theorem status_parsed_before_ready_witness :
    readyOnlyAfterParsed false (parse_directory penvAllOk 7 true).2 = true ∧
    Event.setStatus .PARSED ∈ (parse_directory penvAllOk 7 true).2 ∧
    Event.setStatus .READY ∈ (parse_directory penvAllOk 7 true).2 := by
  have h := status_parsed_before_ready penvAllOk 7 true
  have h2 := h.2 rfl rfl "/projects/p42" 42 [1] [1] rfl (Or.inl rfl) rfl
    (by decide) rfl rfl rfl
  exact ⟨h.1, h2.1, h2.2⟩

/-- C3: when the detected language is classified as `other`, the dispatch
makes no call to GraphBuilder or GraphStore (no build, no node or edge
insert, no index creation, no generic store call), sets the project status
to ERROR, and raises the typed parsing-failure condition. -/
theorem unsupported_language_no_build (env : AnalyzeEnv) (project_id : Nat) :
    analyze_directory env project_id "other" =
      ((Except.error (.parsingFailed
        "Repository doesn\x27t consist of a language currently supported.") :
          Except Exc Unit),
       [.setStatus .ERROR, .logStats]) ∧
    Event.buildGraph ∉ (analyze_directory env project_id "other").2 ∧
    Event.createNodes ∉ (analyze_directory env project_id "other").2 ∧
    Event.createEdges ∉ (analyze_directory env project_id "other").2 ∧
    Event.createEntityIdIndex ∉ (analyze_directory env project_id "other").2 ∧
    Event.createAndStoreGraph ∉ (analyze_directory env project_id "other").2 ∧
    Event.setStatus .ERROR ∈ (analyze_directory env project_id "other").2 := by
  have h : analyze_directory env project_id "other" =
      ((Except.error (.parsingFailed
        "Repository doesn\x27t consist of a language currently supported.") :
          Except Exc Unit),
       [.setStatus .ERROR, .logStats]) := rfl
  refine ⟨h, ?_, ?_, ?_, ?_, ?_, ?_⟩ <;> rw [h] <;> decide

/-- Number of occurrences of an event in a trace. -/
def countEvent (ev : Event) : List Event → Nat
  | [] => 0
  | e :: rest => (if e = ev then 1 else 0) + countEvent ev rest

theorem countEvent_append (ev : Event) (a b : List Event) :
    countEvent ev (a ++ b) = countEvent ev a + countEvent ev b := by
  induction a with
  | nil => simp [countEvent]
  | cons e rest ih =>
    simp only [List.cons_append, countEvent, List.append_eq, ih]
    omega

theorem analyze_native_count (env : AnalyzeEnv) (project_id : Nat)
    (language : String) (ev : Event)
    (hlang : language = "python" ∨ language = "javascript" ∨
      language = "typescript")
    (h1 : Event.createEntityIdIndex ≠ ev) (h2 : Event.createNodeIdIndex ≠ ev)
    (h3 : Event.closeManager ≠ ev) (h4 : Event.setStatus .ERROR ≠ ev)
    (h5 : Event.sendEvent "Error" ≠ ev) :
    countEvent ev (analyze_directory env project_id language).2 =
      countEvent ev (tryBody env project_id).2 := by
  unfold analyze_directory
  rw [if_pos hlang]
  split <;> simp [countEvent, countEvent_append, h1, h2, h3, h4, h5]

theorem afterBuild_counts (env : AnalyzeEnv) :
    countEvent .buildGraph (afterBuild env).2 = 0 ∧
    countEvent .createNodes (afterBuild env).2 = 1 ∧
    (env.createNodesRes = .ok () →
      countEvent .createEdges (afterBuild env).2 = 1) := by
  rcases hcn : env.createNodesRes with e | u
  · refine ⟨?_, ?_, fun h => ?_⟩
    · simp [afterBuild, hcn, countEvent]
    · simp [afterBuild, hcn, countEvent]
    · exact Except.noConfusion h
  · rcases hce : env.createEdgesRes with e | u
    · refine ⟨?_, ?_, fun _ => ?_⟩ <;> simp [afterBuild, hcn, hce, countEvent]
    · rcases hinf : env.inferenceRes with e | u
      · refine ⟨?_, ?_, fun _ => ?_⟩ <;>
          simp [afterBuild, hcn, hce, hinf, countEvent]
      · refine ⟨?_, ?_, fun _ => ?_⟩ <;>
          simp [afterBuild, hcn, hce, hinf, countEvent]

theorem tryBody_counts_nonempty (env : AnalyzeEnv) (project_id : Nat)
    (n r : List Nat) (hb0 : env.buildResults 0 = .ok (n, r)) (hn : n ≠ []) :
    countEvent .buildGraph (tryBody env project_id).2 = 1 ∧
    countEvent .createNodes (tryBody env project_id).2 = 1 ∧
    (env.createNodesRes = .ok () →
      countEvent .createEdges (tryBody env project_id).2 = 1) := by
  have hlen : ¬ n.length = 0 := by simpa [List.length_eq_zero] using hn
  have h2 : (tryBody env project_id).2 = .buildGraph :: (afterBuild env).2 := by
    simp [tryBody, hb0, hlen]
  obtain ⟨hb, hn1, he⟩ := afterBuild_counts env
  rw [h2]
  refine ⟨?_, ?_, fun h => ?_⟩
  · simp [countEvent, hb]
  · simp [countEvent, hn1]
  · simp [countEvent, he h]

theorem tryBody_counts_empty (env : AnalyzeEnv) (project_id : Nat)
    (r : List Nat) (hb0 : env.buildResults 0 = .ok ([], r)) :
    countEvent .buildGraph (tryBody env project_id).2 = 2 := by
  rcases hb1 : env.buildResults 1 with e | ⟨n2, r2⟩
  · simp [tryBody, hb0, hb1, countEvent]
  · by_cases h2 : n2.length = 0
    · simp [tryBody, hb0, hb1, h2, countEvent]
    · have hb := (afterBuild_counts env).1
      simp [tryBody, hb0, hb1, h2, countEvent, hb]

theorem tryBody_counts_le (env : AnalyzeEnv) (project_id : Nat) :
    countEvent .buildGraph (tryBody env project_id).2 ≤ 2 := by
  rcases hb0 : env.buildResults 0 with e | ⟨n, r⟩
  · simp [tryBody, hb0, countEvent]
  · by_cases hl : n.length = 0
    · rcases hb1 : env.buildResults 1 with e | ⟨n2, r2⟩
      · simp [tryBody, hb0, hb1, hl, countEvent]
      · by_cases h2 : n2.length = 0
        · simp [tryBody, hb0, hb1, hl, h2, countEvent]
        · have hb := (afterBuild_counts env).1
          simp [tryBody, hb0, hb1, hl, h2, countEvent, hb]
    · have hb := (afterBuild_counts env).1
      simp [tryBody, hb0, hl, countEvent, hb]

/-- C2: on a graph-native language the number of `build_graph` invocations
is a function of the builder results: exactly one invocation (with exactly
one node-insert call, and one edge-insert call once node insertion
succeeded) when the first attempt returns a non-empty node set; exactly
two invocations when the first attempt returns an empty node set; and
never more than two invocations on any run. -/
theorem build_invocation_counts (env : AnalyzeEnv) (project_id : Nat)
    (language : String)
    (hlang : language = "python" ∨ language = "javascript" ∨
      language = "typescript") :
    (∀ n r, env.buildResults 0 = .ok (n, r) → n ≠ [] →
      countEvent .buildGraph (analyze_directory env project_id language).2 = 1 ∧
      countEvent .createNodes (analyze_directory env project_id language).2 = 1 ∧
      (env.createNodesRes = .ok () →
        countEvent .createEdges
          (analyze_directory env project_id language).2 = 1)) ∧
    (∀ r, env.buildResults 0 = .ok ([], r) →
      countEvent .buildGraph (analyze_directory env project_id language).2 = 2) ∧
    countEvent .buildGraph (analyze_directory env project_id language).2 ≤ 2 := by
  have hB := analyze_native_count env project_id language .buildGraph hlang
    (by decide) (by decide) (by decide) (by decide) (by decide)
  have hN := analyze_native_count env project_id language .createNodes hlang
    (by decide) (by decide) (by decide) (by decide) (by decide)
  have hE := analyze_native_count env project_id language .createEdges hlang
    (by decide) (by decide) (by decide) (by decide) (by decide)
  refine ⟨?_, ?_, ?_⟩
  · intro n r hb0 hn
    obtain ⟨c1, c2, c3⟩ := tryBody_counts_nonempty env project_id n r hb0 hn
    rw [hB, hN, hE]
    exact ⟨c1, c2, c3⟩
  · intro r hb0
    rw [hB]
    exact tryBody_counts_empty env project_id r hb0
  · rw [hB]
    exact tryBody_counts_le env project_id

/-- C2 witness: with a non-empty first build, one build and one insert
cycle; with empty first builds, exactly two build calls. -/
theorem build_invocation_counts_witness :
    countEvent .buildGraph (analyze_directory envAllOk 1 "python").2 = 1 ∧
    countEvent .createNodes (analyze_directory envAllOk 1 "python").2 = 1 ∧
    countEvent .createEdges (analyze_directory envAllOk 1 "python").2 = 1 ∧
    countEvent .buildGraph (analyze_directory envEmptyBuilds 1 "python").2 = 2 := by
  have h1 := (build_invocation_counts envAllOk 1 "python" (Or.inl rfl)).1
    [1] [1] rfl (by decide)
  have h2 := (build_invocation_counts envEmptyBuilds 1 "python"
    (Or.inl rfl)).2.1 [] rfl
  exact ⟨h1.1, h1.2.1, h1.2.2 rfl, h2⟩

/-- C4: enrichment-failure propagation is asymmetric between the two
language branches.  Graph-native: an exception from the enrichment step is
caught, status is set to ERROR, READY is never written, and
`analyze_directory` returns normally (no re-raise).  Generic supported
language: the same exception propagates uncaught out of
`analyze_directory` (and READY is never written). -/
theorem enrichment_failure_asymmetry (env : AnalyzeEnv) (project_id : Nat)
    (e : Exc) (hinf : env.inferenceRes = .error e) :
    (∀ language n r,
      (language = "python" ∨ language = "javascript" ∨
        language = "typescript") →
      env.buildResults 0 = .ok (n, r) → n ≠ [] →
      env.createNodesRes = .ok () → env.createEdgesRes = .ok () →
      (analyze_directory env project_id language).1 = .ok () ∧
      Event.setStatus .ERROR ∈ (analyze_directory env project_id language).2 ∧
      Event.setStatus .READY ∉ (analyze_directory env project_id language).2) ∧
    (∀ language,
      ¬(language = "python" ∨ language = "javascript" ∨
        language = "typescript") →
      language ≠ "other" → env.storeGraphRes = .ok () →
      (analyze_directory env project_id language).1 = .error e ∧
      Event.setStatus .READY ∉ (analyze_directory env project_id language).2) := by
  constructor
  · intro language n r hlang hb0 hn hcn hce
    have hlen : ¬ n.length = 0 := by simpa [List.length_eq_zero] using hn
    have hAB : afterBuild env =
        ((Except.error e : Except Exc Unit),
         [.createNodes, .createEdges, .setStatus .PARSED, .sendEvent "Parsed",
          .runInference]) := by
      simp [afterBuild, hcn, hce, hinf]
    have hTB : tryBody env project_id =
        ((Except.error e : Except Exc Unit),
         [.buildGraph, .createNodes, .createEdges, .setStatus .PARSED,
          .sendEvent "Parsed", .runInference]) := by
      simp [tryBody, hb0, hlen, hAB]
    have hAD : analyze_directory env project_id language =
        ((Except.ok () : Except Exc Unit),
         [.createEntityIdIndex, .createNodeIdIndex, .buildGraph, .createNodes,
          .createEdges, .setStatus .PARSED, .sendEvent "Parsed", .runInference,
          .setStatus .ERROR, .sendEvent "Error", .closeManager]) := by
      simp [analyze_directory, hlang, hTB]
    rw [hAD]
    exact ⟨rfl, by decide, by decide⟩
  · intro language hlang hother hsg
    have hAD : analyze_directory env project_id language =
        ((Except.error e : Except Exc Unit),
         [.createAndStoreGraph, .setStatus .PARSED, .runInference,
          .closeService, .logStats]) := by
      simp [analyze_directory, hlang, hother, hsg, hinf]
    rw [hAD]
    refine ⟨rfl, ?_⟩
    simp

/-- C4 witness: with a failing enrichment engine, a python run swallows
the failure (ok result, ERROR status, no READY) while a java run
propagates the same exception. -/
theorem enrichment_failure_asymmetry_witness :
    (analyze_directory envInferenceFails 3 "python").1 = .ok () ∧
    Event.setStatus .ERROR ∈ (analyze_directory envInferenceFails 3 "python").2 ∧
    Event.setStatus .READY ∉ (analyze_directory envInferenceFails 3 "python").2 ∧
    (analyze_directory envInferenceFails 3 "java").1 = .error (.other "boom") ∧
    Event.setStatus .READY ∉ (analyze_directory envInferenceFails 3 "java").2 := by
  have h := enrichment_failure_asymmetry envInferenceFails 3 (.other "boom") rfl
  have h1 := h.1 "python" [1] [1] (Or.inl rfl) rfl (by decide) rfl rfl
  have h2 := h.2 "java" (by decide) (by decide) rfl
  exact ⟨h1.1, h1.2.1, h1.2.2, h2.1, h2.2⟩

theorem parse_result_eq (env : ParseEnv) (project_id : Nat)
    (cleanup_graph : Bool) :
    (parse_directory env project_id cleanup_graph).1 =
      parse_final_result env project_id cleanup_graph := by
  unfold parse_directory
  split
  · split <;> rfl
  · rfl

theorem cleanupStep_count (env : ParseEnv) (cleanup_graph : Bool) (ev : Event)
    (h : Event.cleanupGraph ≠ ev) :
    countEvent ev (cleanupStep env cleanup_graph).2 = 0 := by
  unfold cleanupStep
  rcases cleanup_graph
  · rfl
  · rcases env.cleanupRes with e | u <;> simp [countEvent, h]

theorem afterBuild_no_rmtree (env : AnalyzeEnv) (d : String) :
    Event.rmtree d ∉ (afterBuild env).2 := by
  rcases hcn : env.createNodesRes with e | u
  · simp [afterBuild, hcn]
  · rcases hce : env.createEdgesRes with e | u
    · simp [afterBuild, hcn, hce]
    · rcases hinf : env.inferenceRes with e | u <;>
        simp [afterBuild, hcn, hce, hinf]

theorem tryBody_no_rmtree (env : AnalyzeEnv) (project_id : Nat) (d : String) :
    Event.rmtree d ∉ (tryBody env project_id).2 := by
  have hab := afterBuild_no_rmtree env d
  rcases hb0 : env.buildResults 0 with e | ⟨n, r⟩
  · simp [tryBody, hb0]
  · by_cases hl : n.length = 0
    · rcases hb1 : env.buildResults 1 with e | ⟨n2, r2⟩
      · simp [tryBody, hb0, hb1, hl]
      · by_cases h2 : n2.length = 0
        · simp [tryBody, hb0, hb1, hl, h2]
        · simp [tryBody, hb0, hb1, hl, h2, hab]
    · simp [tryBody, hb0, hl, hab]

theorem analyze_no_rmtree (env : AnalyzeEnv) (project_id : Nat)
    (language : String) (d : String) :
    Event.rmtree d ∉ (analyze_directory env project_id language).2 := by
  have htb := tryBody_no_rmtree env project_id d
  by_cases hl : language = "python" ∨ language = "javascript" ∨
      language = "typescript"
  · unfold analyze_directory
    rw [if_pos hl]
    split <;> simp [htb]
  · by_cases ho : language ≠ "other"
    · rcases hsg : env.storeGraphRes with e | u
      · simp [analyze_directory, hl, ho, hsg]
      · rcases hinf : env.inferenceRes with e | u <;>
          simp [analyze_directory, hl, ho, hsg, hinf]
    · simp [analyze_directory, hl, ho]

theorem cleanupStep_no_rmtree (env : ParseEnv) (cleanup_graph : Bool)
    (d : String) :
    Event.rmtree d ∉ (cleanupStep env cleanup_graph).2 := by
  unfold cleanupStep
  rcases cleanup_graph
  · simp
  · rcases env.cleanupRes with e | u <;> simp

theorem tryMain_no_rmtree (env : ParseEnv) (project_id : Nat)
    (cleanup_graph : Bool) (d : String) :
    Event.rmtree d ∉ (tryMain env project_id cleanup_graph).2.2.2 := by
  have hcs := cleanupStep_no_rmtree env cleanup_graph d
  unfold tryMain
  split
  · exact hcs
  · split
    · exact hcs
    · split
      · exact hcs
      · split <;>
        · intro hmem
          rcases List.mem_append.mp hmem with h | h
          · exact hcs h
          · exact analyze_no_rmtree env.analyzeEnv _ env.language d h

theorem parse_handler_no_rmtree (env : ParseEnv) (project_id : Nat)
    (cleanup_graph : Bool) (d : String) :
    Event.rmtree d ∉ parse_handler_trace env project_id cleanup_graph := by
  have htm := tryMain_no_rmtree env project_id cleanup_graph d
  unfold parse_handler_trace
  split
  · exact htm
  · intro hmem
    rcases List.mem_append.mp hmem with h | h
    · exact htm h
    · simp at h

/-- C1 counterexample: on a python run whose two build attempts both
return empty node sets, `parse_directory` returns the plain success value
(status ERROR was persisted), so no BuildFailedError-class message is
surfaced to the caller of the run. -/
theorem empty_builds_not_surfaced :
    (parse_directory penvEmptyBuilds 7 true).1 =
      .ok ("The project has been parsed successfully", 42) ∧
    Event.setStatus .ERROR ∈ (parse_directory penvEmptyBuilds 7 true).2 := by
  constructor
  · rfl
  · decide

/-- C1 (amended): when both build attempts return empty node sets on a
graph-native run, build is invoked exactly twice, a ParsingFailedError
message carrying the project id is created and status ERROR is persisted —
but the exception is caught by the branch-local catch-all, so the run
returns the plain success value instead of surfacing the message to its
caller. -/
theorem empty_builds_error_swallowed (env : ParseEnv) (project_id : Nat)
    (cleanup_graph : Bool) (dir : String) (pid2 : Nat) (r0 r1 : List Nat)
    (hcl : env.cleanupRes = .ok ()) (hco : env.cloneRes = .ok ())
    (hsetup : env.setupRes = .ok (dir, pid2))
    (hlang : env.language = "python" ∨ env.language = "javascript" ∨
      env.language = "typescript")
    (hb0 : env.analyzeEnv.buildResults 0 = .ok ([], r0))
    (hb1 : env.analyzeEnv.buildResults 1 = .ok ([], r1)) :
    (parse_directory env project_id cleanup_graph).1 =
      .ok ("The project has been parsed successfully", pid2) ∧
    Event.setStatus .ERROR ∈ (parse_directory env project_id cleanup_graph).2 ∧
    countEvent .buildGraph (parse_directory env project_id cleanup_graph).2 = 2 ∧
    (tryBody env.analyzeEnv pid2).1 =
      .error (.parsingFailed
        ("Project: " ++ toString pid2 ++ " Failed to build graph")) := by
  have hTB : tryBody env.analyzeEnv pid2 =
      ((Except.error (.parsingFailed
        ("Project: " ++ toString pid2 ++ " Failed to build graph")) :
          Except Exc Unit),
       [.buildGraph, .buildGraph]) := by
    simp [tryBody, hb0, hb1]
  have hAD : analyze_directory env.analyzeEnv pid2 env.language =
      ((Except.ok () : Except Exc Unit),
       [.createEntityIdIndex, .createNodeIdIndex, .buildGraph, .buildGraph,
        .setStatus .ERROR, .sendEvent "Error", .closeManager]) := by
    simp [analyze_directory, hlang, hTB]
  have hc1 : (cleanupStep env cleanup_graph).1 = none := by
    unfold cleanupStep
    rcases cleanup_graph <;> simp [hcl]
  have hTM : tryMain env project_id cleanup_graph =
      (.ok ("The project has been parsed successfully", pid2), some dir, pid2,
       (cleanupStep env cleanup_graph).2 ++
        [.createEntityIdIndex, .createNodeIdIndex, .buildGraph, .buildGraph,
         .setStatus .ERROR, .sendEvent "Error", .closeManager]) := by
    simp [tryMain, hc1, hco, hsetup, hAD]
  have hPH : parse_handler_trace env project_id cleanup_graph =
      (cleanupStep env cleanup_graph).2 ++
        [.createEntityIdIndex, .createNodeIdIndex, .buildGraph, .buildGraph,
         .setStatus .ERROR, .sendEvent "Error", .closeManager] := by
    simp [parse_handler_trace, hTM]
  have hPF : parse_final_result env project_id cleanup_graph =
      .ok ("The project has been parsed successfully", pid2) := by
    simp [parse_final_result, hTM]
  have hmem : Event.setStatus .ERROR ∈
      parse_handler_trace env project_id cleanup_graph := by
    rw [hPH]
    exact List.mem_append_right _ (by decide)
  have hcount : countEvent .buildGraph
      (parse_handler_trace env project_id cleanup_graph) = 2 := by
    rw [hPH, countEvent_append,
      cleanupStep_count env cleanup_graph .buildGraph (by decide)]
    decide
  refine ⟨?_, ?_, ?_, by rw [hTB]⟩
  · rw [parse_result_eq, hPF]
  · rcases parse_trace_shape env project_id cleanup_graph with hsh | ⟨d, hsh⟩
    · rw [hsh]
      exact hmem
    · rw [hsh]
      exact List.mem_append_left _ hmem
  · rcases parse_trace_shape env project_id cleanup_graph with hsh | ⟨d, hsh⟩
    · rw [hsh, hcount]
    · rw [hsh, countEvent_append, hcount]
      simp [countEvent]

/-- C1 witness for the amended theorem, at the concrete double-empty-build
environment. -/
theorem empty_builds_error_swallowed_witness :
    (parse_directory penvEmptyBuilds 7 true).1 =
      .ok ("The project has been parsed successfully", 42) ∧
    countEvent .buildGraph (parse_directory penvEmptyBuilds 7 true).2 = 2 ∧
    (tryBody penvEmptyBuilds.analyzeEnv 42).1 =
      .error (.parsingFailed "Project: 42 Failed to build graph") := by
  have h := empty_builds_error_swallowed penvEmptyBuilds 7 true
    "/projects/p42" 42 [] [] rfl rfl rfl (Or.inl rfl) rfl rfl
  exact ⟨h.1, h.2.2.1, h.2.2.2⟩

/-- C10: on a graph-native run whose acquisition and setup succeed,
`parse_directory` returns the success value whatever the graph-native
branch did — even when build, insertion or enrichment raised and status
ERROR was persisted, the failure is never reflected in the return value. -/
theorem native_run_always_returns_success (env : ParseEnv) (project_id : Nat)
    (cleanup_graph : Bool) (dir : String) (pid2 : Nat)
    (hcl : env.cleanupRes = .ok ()) (hco : env.cloneRes = .ok ())
    (hsetup : env.setupRes = .ok (dir, pid2))
    (hlang : env.language = "python" ∨ env.language = "javascript" ∨
      env.language = "typescript") :
    (parse_directory env project_id cleanup_graph).1 =
      .ok ("The project has been parsed successfully", pid2) ∧
    (∀ e, (tryBody env.analyzeEnv pid2).1 = .error e →
      Event.setStatus .ERROR ∈ (parse_directory env project_id cleanup_graph).2) := by
  have hAok := analyze_native_ok env.analyzeEnv pid2 env.language hlang
  have hc1 : (cleanupStep env cleanup_graph).1 = none := by
    unfold cleanupStep
    rcases cleanup_graph <;> simp [hcl]
  have hTM : tryMain env project_id cleanup_graph =
      (.ok ("The project has been parsed successfully", pid2), some dir, pid2,
       (cleanupStep env cleanup_graph).2 ++
         (analyze_directory env.analyzeEnv pid2 env.language).2) := by
    simp [tryMain, hc1, hco, hsetup, hAok]
  have hPF : parse_final_result env project_id cleanup_graph =
      .ok ("The project has been parsed successfully", pid2) := by
    simp [parse_final_result, hTM]
  have hPH : parse_handler_trace env project_id cleanup_graph =
      (cleanupStep env cleanup_graph).2 ++
        (analyze_directory env.analyzeEnv pid2 env.language).2 := by
    simp [parse_handler_trace, hTM]
  refine ⟨by rw [parse_result_eq, hPF], ?_⟩
  intro e htb
  have hmemA : Event.setStatus .ERROR ∈
      (analyze_directory env.analyzeEnv pid2 env.language).2 := by
    unfold analyze_directory
    rw [if_pos hlang, htb]
    simp
  have hmem : Event.setStatus .ERROR ∈
      parse_handler_trace env project_id cleanup_graph := by
    rw [hPH]
    exact List.mem_append_right _ hmemA
  rcases parse_trace_shape env project_id cleanup_graph with hsh | ⟨d, hsh⟩
  · rw [hsh]
    exact hmem
  · rw [hsh]
    exact List.mem_append_left _ hmem

/-- C10 witness: with a failing enrichment engine the run still returns
the success value while ERROR was persisted. -/
theorem native_run_always_returns_success_witness :
    (parse_directory penvInferenceFails 7 true).1 =
      .ok ("The project has been parsed successfully", 42) ∧
    Event.setStatus .ERROR ∈ (parse_directory penvInferenceFails 7 true).2 := by
  have h := native_run_always_returns_success penvInferenceFails 7 true
    "/projects/p42" 42 rfl rfl rfl (Or.inl rfl)
  exact ⟨h.1, h.2 (.other "boom") rfl⟩

/-- C6 (amended): on every exit path the working directory is deleted
exactly when one was recorded by setup, its path is non-empty, it exists,
and it starts with the configured project-storage root as a character
string; every deleted path satisfies this guard.  The guard is a
string-prefix check, not path containment, so a sibling path that extends
the root string without a separator is also deleted (see the
counterexample). -/
theorem cleanup_guard (env : ParseEnv) (project_id : Nat)
    (cleanup_graph : Bool) :
    (∀ d, Event.rmtree d ∈ (parse_directory env project_id cleanup_graph).2 →
      d ≠ "" ∧ env.pathExists d = true ∧
      pyStartswith d env.projectPath = true ∧
      (tryMain env project_id cleanup_graph).2.1 = some d) ∧
    (∀ d, (tryMain env project_id cleanup_graph).2.1 = some d → d ≠ "" →
      env.pathExists d = true → pyStartswith d env.projectPath = true →
      Event.rmtree d ∈ (parse_directory env project_id cleanup_graph).2) := by
  constructor
  · intro d hmem
    unfold parse_directory at hmem
    split at hmem
    · rename_i dir heq
      split at hmem
      · rename_i hguard
        rcases List.mem_append.mp hmem with h | h
        · exact absurd h (parse_handler_no_rmtree env project_id cleanup_graph d)
        · have hd : d = dir := by simpa using h
          subst hd
          exact ⟨hguard.1, hguard.2.1, hguard.2.2, heq⟩
      · exact absurd hmem (parse_handler_no_rmtree env project_id cleanup_graph d)
    · exact absurd hmem (parse_handler_no_rmtree env project_id cleanup_graph d)
  · intro d hdir hne hex hpre
    have hred : (parse_directory env project_id cleanup_graph).2 =
        parse_handler_trace env project_id cleanup_graph ++ [Event.rmtree d] := by
      unfold parse_directory
      rw [hdir]
      show (if d ≠ "" ∧ env.pathExists d = true ∧
          pyStartswith d env.projectPath = true then
          (parse_final_result env project_id cleanup_graph,
           parse_handler_trace env project_id cleanup_graph ++ [Event.rmtree d])
        else
          (parse_final_result env project_id cleanup_graph,
           parse_handler_trace env project_id cleanup_graph)).2 =
        parse_handler_trace env project_id cleanup_graph ++ [Event.rmtree d]
      rw [if_pos ⟨hne, hex, hpre⟩]
    rw [hred]
    exact List.mem_append_right _ (by simp)

/-- C6 counterexample: with storage root `/projects` and a working
directory `/projectsX` — a sibling outside the root that extends it as a
string — the run deletes `/projectsX` even though it does not lie under
the root. -/
theorem sibling_dir_deleted :
    Event.rmtree "/projectsX" ∈ (parse_directory penvSibling 7 true).2 ∧
    liesUnderRoot "/projectsX" "/projects" = false := by
  constructor <;> decide

/-- C6 witness: a directory under the root is deleted on the success
path. -/
theorem cleanup_guard_witness :
    Event.rmtree "/projects/p42" ∈ (parse_directory penvAllOk 7 true).2 :=
  (cleanup_guard penvAllOk 7 true).2 "/projects/p42" rfl (by decide) rfl
    (by decide)
